import Mathlib

/-!
Verification development for the quadlet-forge resource builders.

The TypeScript source is shallowly embedded: each builder's closure state
becomes a structure, each method becomes a state-passing function, a JS
`throw` becomes `Except.error`, and the template literals become explicit
string concatenations.  JS string/array primitives used by the templates
(`trim`, `join`, `split`, truthiness) are embedded as executable functions
over `List Char`.
-/

namespace QuadletForge

/-! ### JS string primitives -/

/-- Whitespace recognised by JS `String.prototype.trim` (restricted to the
whitespace characters that can actually occur in this library's templates). -/
def jsWS (c : Char) : Bool :=
  c == ' ' || c == '\n' || c == '\t' || c == '\r'

/-- Char-list core of `String.prototype.trim`. -/
def trimChars (l : List Char) : List Char :=
  ((l.dropWhile jsWS).reverse.dropWhile jsWS).reverse

/-- JS `String.prototype.trim`. -/
def jsTrim (s : String) : String :=
  ⟨trimChars s.data⟩

/-- JS `Array.prototype.join(sep)`. -/
def jsJoin (sep : String) : List String → String
  | [] => ""
  | [x] => x
  | x :: y :: xs => x ++ sep ++ jsJoin sep (y :: xs)

/-- Char-list counterpart of `jsJoin "\n"`, used to reason about the
rendered templates line by line. -/
def joinNl : List (List Char) → List Char
  | [] => []
  | [x] => x
  | x :: y :: xs => x ++ '\n' :: joinNl (y :: xs)

/-- Char-list splitting on a newline, the core of `String.prototype.split("\n")`. -/
def splitNl : List Char → List (List Char)
  | [] => [[]]
  | c :: cs =>
    match splitNl cs with
    | [] => [[]]
    | cur :: rest => if c = '\n' then [] :: cur :: rest else (c :: cur) :: rest

/-- JS `s.split("\n")`. -/
def jsLines (s : String) : List String :=
  (splitNl s.data).map fun l => ⟨l⟩

/-- JS truthiness of a string: `Boolean(s)` is false exactly for the empty
string.  Used for `Array.prototype.filter(Boolean)` and for optional-field
tests such as `config.host_path`. -/
def jsTruthy (s : String) : Bool :=
  !s.data.isEmpty

/-- JS truthiness of an optional string field (`undefined` and `""` are falsy). -/
def jsTruthyOpt : Option String → Bool
  | none => false
  | some s => jsTruthy s

/-- `startsWithChars p l` holds when `p` is a prefix of `l`. -/
def startsWithChars (p l : List Char) : Bool :=
  match p with
  | [] => true
  | b :: bs =>
    match l with
    | [] => false
    | a :: as => a == b && startsWithChars bs as

/-- `String.prototype.startsWith`. -/
def strStarts (s pre : String) : Bool :=
  startsWithChars pre.data s.data

/-- Substring containment test over the underlying char lists. -/
def containsChars (l sub : List Char) : Bool :=
  match l with
  | [] => startsWithChars sub []
  | _ :: as => startsWithChars sub l || containsChars as sub

/-- `String.prototype.includes`. -/
def containsSub (s sub : String) : Bool :=
  containsChars s.data sub.data

/-- JS template interpolation of a plain object: `${obj}` invokes
`Object.prototype.toString`, producing this constant.  The container template
interpolates the pod *ref object* itself (`${dependencies.pod}`). -/
def jsObjectString : String := "[object Object]"

/-- `PATHS.user_quadlet` from the shared constants. -/
def PODMAN_PATHS_quadlet : String := ".config/containers/systemd"

/-! ### Data model: leaf resources (network.ts second draft, createNetwork) -/

/-- `PodmanNetworkConfig` from network.ts. -/
structure PodmanNetworkConfig where
  id : String
  subnet : String
  gateway : String
deriving DecidableEq

/-- The resource value returned by `createNetwork`: its `type` is the constant
`"network"`; we record `id` and the captured config. -/
structure NetworkResource where
  id : String
  config : PodmanNetworkConfig
deriving DecidableEq

/-- Template of network.ts (`createNetwork` draft). -/
def networkTemplate (id : String) (config : PodmanNetworkConfig) : String :=
  jsTrim ("\n[Network]\nNetworkName=" ++ id ++ "\nDriver=bridge\nSubnet="
    ++ config.subnet ++ "\nGateway=" ++ config.gateway
    ++ "\n\n[Install]\nWantedBy=default.target\n")

/-- `createNetwork` from network.ts. -/
def createNetwork (config : PodmanNetworkConfig) : NetworkResource :=
  { id := config.id, config := config }

/-- The resource's `generateFileTemplate` closure. -/
def NetworkResource.generateFileTemplate (r : NetworkResource) : String :=
  networkTemplate r.id r.config

/-- A volume resource as consumed by the container/pod templates, which read
only `v.config().id` and `v.type` (the constant `"volume"`). -/
structure VolumeResource where
  id : String
deriving DecidableEq

/-- `PortMapping` from builders/podman/types.ts. -/
structure PortMapping where
  external : Nat
  internal : Nat
deriving DecidableEq

/-- `PodmanPodRef`: the weak reference `{ id, type: "pod" }` handed to a
container by `addContainer`. -/
structure PodmanPodRef where
  id : String
deriving DecidableEq

/-! ### Container builder (container.ts, in part_002) -/

/-- `PodmanContainerConfig`: `id`, `image`, plus the optional dependency
lists (the `pod` key is `Omit`ted from the config).  `config.networks ?? []`
etc. are embedded by making the lists plain (empty list for absent). -/
structure PodmanContainerConfig where
  id : String
  image : String
  networks : List NetworkResource
  ports : List PortMapping
  volumes : List VolumeResource
deriving DecidableEq

/-- The mutable `dependencies` closure state of one container instance,
together with the captured config fields the template reads. -/
structure ContainerState where
  id : String
  image : String
  networks : List NetworkResource
  pod : Option PodmanPodRef
  ports : List PortMapping
  volumes : List VolumeResource
deriving DecidableEq

/-- `createContainer`. -/
def createContainer (config : PodmanContainerConfig) : ContainerState :=
  { id := config.id, image := config.image, networks := config.networks,
    pod := none, ports := config.ports, volumes := config.volumes }

/-- `_setPodRef`: throws when `dependencies.networks.length > 0`. -/
def setPodRef (c : ContainerState) (pod : PodmanPodRef) :
    Except String ContainerState :=
  if c.networks.length > 0 then
    Except.error "Cannot attach pod to a container with networks"
  else
    Except.ok { c with pod := some pod }

/-- `addToNetwork`: throws when `dependencies.pod` is truthy (non-null). -/
def addToNetwork (c : ContainerState) (network : NetworkResource) :
    Except String ContainerState :=
  match c.pod with
  | some _ => Except.error "Cannot attach networks to a container in a pod"
  | none => Except.ok { c with networks := c.networks ++ [network] }

/-- `exposePort`: pushes unconditionally (the source has no duplicate check). -/
def exposePort (c : ContainerState) (port : PortMapping) : ContainerState :=
  { c with ports := c.ports ++ [port] }

/-- `addVolume`: pushes unconditionally. -/
def addVolume (c : ContainerState) (volume : VolumeResource) : ContainerState :=
  { c with volumes := c.volumes ++ [volume] }

/-- The dependency line array of the container template, including its
`filter(Boolean)`.  The `Pod=` line interpolates the ref object itself
(`${dependencies.pod}.${dependencies.pod.type}`). -/
def containerDepLines (c : ContainerState) : List String :=
  ((c.networks.map fun n => "Network=" ++ n.config.id ++ "." ++ "network")
    ++ (match c.pod with
        | some _ => ["Pod=" ++ jsObjectString ++ "." ++ "pod"]
        | none => [])
    ++ (c.ports.map fun p =>
          "Port=" ++ toString p.external ++ ":" ++ toString p.internal)
    ++ (c.volumes.map fun v => "Volume=" ++ v.id ++ "." ++ "volume")).filter
    jsTruthy

/-- The container template literal. -/
def containerTemplate (c : ContainerState) : String :=
  jsTrim ("\n[Container]\nContainerName=" ++ c.id ++ "\nImage=" ++ c.image
    ++ "\n" ++ jsJoin "\n" (containerDepLines c))

/-- `generateFileTemplate` of a container: throws when
`networks.length === 0 && !pod`. -/
def ContainerState.generateFileTemplate (c : ContainerState) :
    Except String String :=
  if c.networks.length == 0 && c.pod.isNone then
    Except.error ("Container " ++ c.id
      ++ " must have either networks or pod attached")
  else
    Except.ok (containerTemplate c)

/-! ### Pod builder (pod.ts, in part_002) -/

/-- `PodmanPodConfig` with its optional dependency lists. -/
structure PodmanPodConfig where
  id : String
  networks : List NetworkResource
  containers : List ContainerState
  ports : List PortMapping
  volumes : List VolumeResource
deriving DecidableEq

/-- The mutable `dependencies` closure state of one pod instance. -/
structure PodState where
  id : String
  networks : List NetworkResource
  containers : List ContainerState
  ports : List PortMapping
  volumes : List VolumeResource
deriving DecidableEq

/-- `createPod`. -/
def createPod (config : PodmanPodConfig) : PodState :=
  { id := config.id, networks := config.networks,
    containers := config.containers, ports := config.ports,
    volumes := config.volumes }

/-- Pod `addToNetwork`: pushes unconditionally. -/
def podAddToNetwork (p : PodState) (network : NetworkResource) : PodState :=
  { p with networks := p.networks ++ [network] }

/-- Pod `exposePort`: pushes unconditionally. -/
def podExposePort (p : PodState) (port : PortMapping) : PodState :=
  { p with ports := p.ports ++ [port] }

/-- Pod `addVolume`: pushes unconditionally. -/
def podAddVolume (p : PodState) (volume : VolumeResource) : PodState :=
  { p with volumes := p.volumes ++ [volume] }

/-- `addContainer`: the source pushes the container onto the pod's list and
*then* calls the container's `_setPodRef`, whose exception (if any)
propagates after the push.  On success the stored element is the same
(now-mutated) object, so it carries the pod ref. -/
def addContainer (p : PodState) (c : ContainerState) :
    PodState × Except String ContainerState :=
  match setPodRef c { id := p.id } with
  | Except.error e =>
      ({ p with containers := p.containers ++ [c] }, Except.error e)
  | Except.ok c' =>
      ({ p with containers := p.containers ++ [c'] }, Except.ok c')

/-- The dependency line array of the pod template, with its `filter(Boolean)`. -/
def podDepLines (p : PodState) : List String :=
  ((p.networks.map fun n => "Network=" ++ n.config.id ++ "." ++ "network")
    ++ (p.ports.map fun pm =>
          "Port=" ++ toString pm.external ++ ":" ++ toString pm.internal)
    ++ (p.volumes.map fun v => "Volume=" ++ v.id ++ "." ++ "volume")).filter
    jsTruthy

/-- The pod template literal. -/
def podTemplate (p : PodState) : String :=
  jsTrim ("\n[Pod]\nPodName=" ++ p.id ++ "\n" ++ jsJoin "\n" (podDepLines p))

/-- `generateFileTemplate` of a pod: throws when
`networks.length === 0 && containers.length === 0`. -/
def PodState.generateFileTemplate (p : PodState) : Except String String :=
  if p.networks.length == 0 && p.containers.length == 0 then
    Except.error ("Pod " ++ p.id
      ++ " must have at least 1 network and 1 container attached")
  else
    Except.ok (podTemplate p)

/-! ### Socket builder (systemd/socket.ts) -/

/-- `SocketConfig`. -/
structure SocketConfig where
  id : String
  activate_service : String
  ports : List Nat
deriving DecidableEq

/-- The socket template literal.  `${[...ports.map(...)]}` interpolates an
*array*, which JS stringifies by joining with a comma; the two `#` comment
lines sit inside the template literal and so appear in the output; the
`Service=` line interpolates `activate_service` with no suffix. -/
def socketTemplate (config : SocketConfig) : String :=
  jsTrim ("\n[Socket]\n"
    ++ jsJoin "," (config.ports.map fun n => "ListenStream=[::]" ++ toString n)
    ++ "\n# Allows IPv4 and IPv6 connections\nBindIPv6Only=both\n# This triggers the service immediately when socket is activated\nService="
    ++ config.activate_service ++ "\n\n[Install]\nWantedBy=socket.target\n")

/-- `createSocket` performs no validation; the resource's
`generateFileTemplate` closure just renders the template. -/
def SocketConfig.generateFileTemplate (config : SocketConfig) : String :=
  socketTemplate config

/-! ### Volume factory (builders/podman/volume.ts, createVolumes) -/

/-- `PodmanVolumeConfig` from volume.ts. -/
structure PodmanVolumeConfig where
  name : String
  mount_path : String
  host_path : Option String
  selinux_label : Option String
deriving DecidableEq

/-- One generated file tuple. -/
structure GeneratedFile where
  file_name : String
  output_dir_local : String
  contents : String
deriving DecidableEq

/-- `s.split(".")[0]`. -/
def splitHeadDot (s : String) : String :=
  ⟨s.data.takeWhile fun c => c != '.'⟩

/-- The `templates` array built by `createVolumes`: only truthy-`host_path`-free
(podman-managed) volumes contribute a file. -/
def volumeTemplates (volumes : List PodmanVolumeConfig) : List GeneratedFile :=
  (volumes.filter fun config => !jsTruthyOpt config.host_path).map fun config =>
    { file_name := config.name ++ ".volume",
      output_dir_local := PODMAN_PATHS_quadlet,
      contents := "[Volume]" }

/-- `getFileTemplates` of `createVolumes`: throws when any requested name
matches a bind-mount volume, else filters the prepared templates. -/
def getFileTemplates (volumes : List PodmanVolumeConfig)
    (names : List String) : Except String (List GeneratedFile) :=
  let bindMounts := names.filter fun name =>
    volumes.any fun v => v.name == name && jsTruthyOpt v.host_path
  if bindMounts.length > 0 then
    Except.error ("Cannot get quadlet templates for bind mounts: ["
      ++ jsJoin "," bindMounts
      ++ "]. Only podman-managed volumes generate template files.")
  else
    Except.ok ((volumeTemplates volumes).filter fun t =>
      names.contains (splitHeadDot t.file_name))

/-! ### Network registry (network.ts, registerNetworks) -/

/-- JS `Map.prototype.set`: overwrite the value at an existing key in place,
otherwise append the new entry. -/
def mapSet (m : List (String × NetworkResource)) (k : String)
    (v : NetworkResource) : List (String × NetworkResource) :=
  if m.any fun kv => kv.1 == k then
    m.map fun kv => if kv.1 == k then (k, v) else kv
  else
    m ++ [(k, v)]

/-- JS `Map.prototype.get` (`undefined` becomes `none`). -/
def mapGet (m : List (String × NetworkResource)) (k : String) :
    Option NetworkResource :=
  (m.find? fun kv => kv.1 == k).map fun kv => kv.2

/-- `registerNetworks`: builds the id → resource map with no runtime
duplicate check (uniqueness is enforced only at the type level by
`UniqueObjectKeyArray`). -/
def registerNetworks (networks : List PodmanNetworkConfig) :
    List (String × NetworkResource) :=
  networks.foldl (fun m n => mapSet m n.id (createNetwork n)) []

/-- Modelled from the spec: the runtime-checked registration §4.4 describes —
`register<Kind>` that fails with the `DuplicateResourceId` error of
`errorDuplicateResource` (code `duplicate_network`, message naming the kind
and the offending id) when a config's id repeats an earlier one.  The source's
`registerNetworks` performs no such runtime check; this definition exists only
to compare the spec's words with the code. -/
def registerNetworksSpec (networks : List PodmanNetworkConfig) :
    Except String (List (String × NetworkResource)) :=
  networks.foldlM
    (fun m n =>
      if m.any fun kv => kv.1 == n.id then
        Except.error ("duplicate_network" ++ "\n" ++ "Network \"" ++ n.id
          ++ "\" already exists")
      else
        Except.ok (m ++ [(n.id, createNetwork n)]))
    []

/-- The container-side mutual-exclusivity invariant: a container never has
both a pod ref and a non-empty network list. -/
def exclusive (c : ContainerState) : Prop :=
  c.networks = [] ∨ c.pod = none

end QuadletForge

namespace QuadletForge

/-! ### Concrete fixtures -/

def podC3 : PodState :=
  { id := "web", networks := [], containers := [], ports := [], volumes := [] }

def ctrC3 : ContainerState :=
  { id := "caddy", image := "img",
    networks := [createNetwork { id := "app", subnet := "s", gateway := "g" }],
    pod := none, ports := [], volumes := [] }

def ctrC4 : ContainerState :=
  { id := "caddy", image := "docker.io/caddy:latest", networks := [],
    pod := none, ports := [], volumes := [] }

def podC5 : PodState :=
  { id := "web", networks := [], containers := [], ports := [], volumes := [] }

def ctrC5 : ContainerState :=
  { id := "caddy", image := "docker.io/caddy:latest", networks := [],
    pod := none, ports := [], volumes := [] }

def outC5 : String :=
  "[Container]\nContainerName=caddy\nImage=docker.io/caddy:latest\nPod=[object Object].pod"

end QuadletForge

namespace QuadletForge

/-- C1: the spec says a pod's generateFileTemplate fails unless both the
networks list and the containers list are non-empty — in particular with one
network and zero containers — but the code's guard fires only when *both*
lists are empty, so a pod with one network and zero containers renders
successfully. -/
theorem c1_pod_one_network_zero_containers_renders :
    PodState.generateFileTemplate
      { id := "web",
        networks := [createNetwork
          { id := "app", subnet := "10.89.0.0/24", gateway := "10.89.0.1" }],
        containers := [], ports := [], volumes := [] }
      = Except.ok "[Pod]\nPodName=web\nNetwork=app.network" := by
  rfl

/-- C2: networks and pod are mutually exclusive on a container: addToNetwork
fails whenever the pod back-reference is set; addContainer (through
_setPodRef) fails whenever the container's networks list is non-empty;
createContainer starts with no pod ref, every successful addToNetwork leaves
the pod ref unset, every successful _setPodRef requires and keeps an empty
networks list, and the remaining container operations preserve exclusivity. -/
theorem c2_networks_pod_mutually_exclusive :
    (∀ (c : ContainerState) (n : NetworkResource), c.pod ≠ none →
        addToNetwork c n
          = Except.error "Cannot attach networks to a container in a pod")
      ∧ (∀ (p : PodState) (c : ContainerState), c.networks ≠ [] →
          (addContainer p c).2
            = Except.error "Cannot attach pod to a container with networks")
      ∧ (∀ cfg : PodmanContainerConfig, exclusive (createContainer cfg))
      ∧ (∀ (c c' : ContainerState) (n : NetworkResource),
          addToNetwork c n = Except.ok c' → c'.pod = none)
      ∧ (∀ (c c' : ContainerState) (r : PodmanPodRef),
          setPodRef c r = Except.ok c' → c'.networks = [] ∧ c'.pod = some r)
      ∧ (∀ (c : ContainerState) (p : PortMapping),
          exclusive c → exclusive (exposePort c p))
      ∧ (∀ (c : ContainerState) (v : VolumeResource),
          exclusive c → exclusive (addVolume c v)) := by
  refine ⟨?_, ?_, ?_, ?_, ?_, ?_, ?_⟩
  · intro c n h
    cases hc : c.pod with
    | none => exact absurd hc h
    | some r => simp [addToNetwork, hc]
  · intro p c h
    have hl : c.networks.length > 0 := List.length_pos.mpr h
    simp [addContainer, setPodRef, hl]
  · intro cfg
    exact Or.inr rfl
  · intro c c' n h
    cases hc : c.pod with
    | none =>
        simp [addToNetwork, hc] at h
        rw [← h]
    | some r => simp [addToNetwork, hc] at h
  · intro c c' r h
    by_cases hl : c.networks.length > 0
    · simp [setPodRef, hl] at h
    · simp [setPodRef, hl] at h
      rw [← h]
      exact ⟨List.length_eq_zero.mp (Nat.eq_zero_of_not_pos hl), rfl⟩
  · intro c p h
    cases h with
    | inl h => exact Or.inl h
    | inr h => exact Or.inr h
  · intro c v h
    cases h with
    | inl h => exact Or.inl h
    | inr h => exact Or.inr h

/-- C2 witness: a container holding a pod ref rejects addToNetwork, and a
pod rejects addContainer for a container that already has a network. -/
theorem c2_witness :
    addToNetwork
        { id := "w", image := "i", networks := [], pod := some { id := "p" },
          ports := [], volumes := [] }
        { id := "n", config := { id := "n", subnet := "s", gateway := "g" } }
      = Except.error "Cannot attach networks to a container in a pod"
    ∧ (addContainer
        { id := "p", networks := [], containers := [], ports := [],
          volumes := [] }
        { id := "w2", image := "i",
          networks := [⟨"n", ⟨"n", "s", "g"⟩⟩],
          pod := none, ports := [], volumes := [] }).2
      = Except.error "Cannot attach pod to a container with networks" :=
  ⟨c2_networks_pod_mutually_exclusive.1 _ _ (by simp),
   c2_networks_pod_mutually_exclusive.2.1 _ _ (by simp)⟩

/-- C3: the spec requires a rejected attach to leave the dependency list
unchanged, but addContainer pushes the container onto the pod's list *before*
the _setPodRef check, so a rejected addContainer leaves the pod's containers
list grown by the rejected container. -/
theorem c3_rejected_addContainer_still_grows_pod :
    (addContainer podC3 ctrC3).2
        = Except.error "Cannot attach pod to a container with networks"
      ∧ (addContainer podC3 ctrC3).1.containers = [ctrC3]
      ∧ podC3.containers = [] :=
  ⟨rfl, rfl, rfl⟩

/-- C4: the spec says exposePort fails with the duplicate-port error when the
external port is already present, but the container's exposePort has no
duplicate check: it appends unconditionally, and exposing port 80 twice on
the caddy container succeeds with both mappings retained. -/
theorem c4_exposePort_appends_unconditionally :
    (∀ (c : ContainerState) (p : PortMapping),
        exposePort c p = { c with ports := c.ports ++ [p] })
      ∧ (exposePort (exposePort ctrC4 { external := 80, internal := 80 })
            { external := 80, internal := 80 }).ports
          = [{ external := 80, internal := 80 },
             { external := 80, internal := 80 }] :=
  ⟨fun _ _ => rfl, rfl⟩

/-- C5: after a successful addContainer the container's template renders, but
its Pod= line interpolates the pod ref object itself (JS
Object.prototype.toString), yielding "Pod=[object Object].pod" instead of the
"Pod=web.pod" the spec promises. -/
theorem c5_pod_line_interpolates_object :
    (addContainer podC5 ctrC5).2
        = Except.ok { ctrC5 with pod := some { id := "web" } }
      ∧ ContainerState.generateFileTemplate
          { ctrC5 with pod := some { id := "web" } } = Except.ok outC5
      ∧ containsSub outC5 "Pod=[object Object].pod" = true
      ∧ containsSub outC5 "Pod=web.pod" = false :=
  ⟨rfl, rfl, by decide, by decide⟩

/-- C6: the socket template joins all ListenStream entries with a comma into
a single line (JS array interpolation) instead of one line per port, renders
Service= without appending ".service", and createSocket accepts an empty
ports list, rendering a socket with an empty ListenStream line instead of
failing.  The fixed BindIPv6Only=both line and the [Install] section with
WantedBy=socket.target are present as the spec says. -/
theorem c6_socket_template_divergences :
    SocketConfig.generateFileTemplate
        { id := "web", activate_service := "caddy", ports := [80, 443] }
      = "[Socket]\nListenStream=[::]80,ListenStream=[::]443\n# Allows IPv4 and IPv6 connections\nBindIPv6Only=both\n# This triggers the service immediately when socket is activated\nService=caddy\n\n[Install]\nWantedBy=socket.target"
    ∧ SocketConfig.generateFileTemplate
        { id := "empty", activate_service := "svc", ports := [] }
      = "[Socket]\n\n# Allows IPv4 and IPv6 connections\nBindIPv6Only=both\n# This triggers the service immediately when socket is activated\nService=svc\n\n[Install]\nWantedBy=socket.target" :=
  ⟨rfl, rfl⟩

/-- C7: createContainer caddy, exposePort 80:80, addToNetwork of the "app"
network, then generateFileTemplate yields exactly the five lines
header/name/image/network/port with no surrounding whitespace. -/
theorem c7_caddy_example_exact_output :
    ((addToNetwork
        (exposePort
          (createContainer
            { id := "caddy", image := "docker.io/caddy:latest",
              networks := [], ports := [], volumes := [] })
          { external := 80, internal := 80 })
        (createNetwork
          { id := "app", subnet := "10.89.0.0/24",
            gateway := "10.89.0.1" })).bind
      ContainerState.generateFileTemplate)
      = Except.ok "[Container]\nContainerName=caddy\nImage=docker.io/caddy:latest\nNetwork=app.network\nPort=80:80" :=
  rfl

end QuadletForge

namespace QuadletForge

/-! ### Lemmas about the embedded JS string primitives -/

theorem data_append (a b : String) : (a ++ b).data = a.data ++ b.data := rfl

theorem jsJoin_nl_data (ss : List String) :
    (jsJoin "\n" ss).data = joinNl (ss.map String.data) := by
  match ss with
  | [] => rfl
  | [x] => rfl
  | x :: y :: xs =>
      show (x ++ "\n" ++ jsJoin "\n" (y :: xs)).data = _
      rw [data_append, data_append, jsJoin_nl_data (y :: xs)]
      simp [joinNl]

theorem splitNl_ne_nil (l : List Char) : splitNl l ≠ [] := by
  match l with
  | [] => simp [splitNl]
  | c :: cs =>
      have ih := splitNl_ne_nil cs
      unfold splitNl
      match h : splitNl cs with
      | [] => exact absurd h ih
      | cur :: rest =>
          by_cases hc : c = '\n' <;> simp [hc]

theorem splitNl_no_nl (l : List Char) (h : '\n' ∉ l) : splitNl l = [l] := by
  match l with
  | [] => rfl
  | c :: cs =>
      have hc : c ≠ '\n' := fun he => h (he ▸ List.mem_cons_self c cs)
      have hcs : '\n' ∉ cs := fun hm => h (List.mem_cons_of_mem c hm)
      unfold splitNl
      rw [splitNl_no_nl cs hcs]
      simp [hc]

theorem splitNl_cons (c : Char) (cs : List Char) :
    splitNl (c :: cs)
      = match splitNl cs with
        | [] => [[]]
        | cur :: rest =>
            if c = '\n' then [] :: cur :: rest else (c :: cur) :: rest := rfl

theorem splitNl_append_nl (x r : List Char) (h : '\n' ∉ x) :
    splitNl (x ++ '\n' :: r) = x :: splitNl r := by
  match x with
  | [] =>
      show splitNl ('\n' :: r) = [] :: splitNl r
      rw [splitNl_cons]
      match hr : splitNl r with
      | [] => exact absurd hr (splitNl_ne_nil r)
      | cur :: rest => simp
  | c :: cs =>
      have hc : c ≠ '\n' := fun he => h (he ▸ List.mem_cons_self c cs)
      have hcs : '\n' ∉ cs := fun hm => h (List.mem_cons_of_mem c hm)
      show splitNl (c :: (cs ++ '\n' :: r)) = (c :: cs) :: splitNl r
      rw [splitNl_cons, splitNl_append_nl cs r hcs]
      simp [hc]

theorem splitNl_joinNl (L : List (List Char)) (hL : L ≠ [])
    (hnl : ∀ l ∈ L, '\n' ∉ l) : splitNl (joinNl L) = L := by
  match L with
  | [] => exact absurd rfl hL
  | [x] =>
      show splitNl x = [x]
      exact splitNl_no_nl x (hnl x (List.mem_singleton_self x))
  | x :: y :: ys =>
      show splitNl (x ++ '\n' :: joinNl (y :: ys)) = x :: y :: ys
      rw [splitNl_append_nl x _ (hnl x (List.mem_cons_self x _))]
      rw [splitNl_joinNl (y :: ys) (by simp)
        (fun l hl => hnl l (List.mem_cons_of_mem x hl))]

theorem joinNl_ne_nil (L : List (List Char)) (hL : L ≠ [])
    (hall : ∀ l ∈ L, l ≠ []) : joinNl L ≠ [] := by
  match L with
  | [] => exact absurd rfl hL
  | [x] => exact hall x (List.mem_singleton_self x)
  | x :: y :: ys =>
      show x ++ '\n' :: joinNl (y :: ys) ≠ []
      simp

theorem getLast?_joinNl (L : List (List Char)) (hall : ∀ l ∈ L, l ≠ []) :
    ∀ last, L.getLast? = some last → (joinNl L).getLast? = last.getLast? := by
  match L with
  | [] => intro last h; simp at h
  | [x] =>
      intro last h
      simp at h
      rw [← h]
      rfl
  | x :: y :: ys =>
      intro last h
      rw [List.getLast?_cons_cons] at h
      have hall' : ∀ l ∈ y :: ys, l ≠ [] :=
        fun l hl => hall l (List.mem_cons_of_mem x hl)
      have ih := getLast?_joinNl (y :: ys) hall' last h
      show (x ++ '\n' :: joinNl (y :: ys)).getLast? = last.getLast?
      rw [List.getLast?_append_cons]
      match hj : joinNl (y :: ys) with
      | [] => exact absurd hj (joinNl_ne_nil (y :: ys) (by simp) hall')
      | c :: cs =>
          rw [List.getLast?_cons_cons, ← hj, ih]

/-- The trim shape every template produces: a leading newline followed by a
body that starts and ends with a non-whitespace character. -/
theorem trimChars_nl_cons (body : List Char)
    (hh : ∀ c, body.head? = some c → jsWS c = false)
    (hl : ∀ c, body.getLast? = some c → jsWS c = false) :
    trimChars ('\n' :: body) = body := by
  have h1 : List.dropWhile jsWS ('\n' :: body) = List.dropWhile jsWS body := by
    rw [List.dropWhile_cons]
    simp [jsWS]
  have h2 : List.dropWhile jsWS body = body := by
    match body with
    | [] => rfl
    | b :: bs =>
        rw [List.dropWhile_cons, hh b rfl]
        simp
  unfold trimChars
  rw [h1, h2]
  rcases List.eq_nil_or_concat body with hb | ⟨ys, c, hb⟩
  · simp [hb]
  · subst hb
    have hc : jsWS c = false := hl c (by simp [List.concat_eq_append])
    simp [List.concat_eq_append, List.dropWhile_cons, hc]

theorem getLast?_append_right {α : Type} (l1 l2 : List α) (h : l2 ≠ []) :
    (l1 ++ l2).getLast? = l2.getLast? := by
  match l2 with
  | [] => exact absurd rfl h
  | a :: as => exact List.getLast?_append_cons l1 a as

theorem mem_of_getLast_eq {α : Type} {l : List α} {a : α}
    (h : l.getLast? = some a) : a ∈ l := by
  match l with
  | [] => simp at h
  | x :: xs =>
      rw [List.getLast?_eq_getLast (x :: xs) (by simp)] at h
      have := Option.some.inj h
      rw [← this]
      exact List.getLast_mem _

/-! ### Characters of rendered natural numbers -/

theorem jsWS_digitChar (m : Nat) : jsWS (Nat.digitChar m) = false := by
  match m with
  | 0 | 1 | 2 | 3 | 4 | 5 | 6 | 7 => decide
  | 8 | 9 | 10 | 11 | 12 | 13 | 14 | 15 => decide
  | n + 16 =>
      unfold Nat.digitChar
      repeat rw [if_neg (by omega)]
      decide

theorem toDigitsCore_chars (b : Nat) (fuel : Nat) :
    ∀ (n : Nat) (acc : List Char) (c : Char),
      c ∈ Nat.toDigitsCore b fuel n acc →
        c ∈ acc ∨ ∃ m, c = Nat.digitChar m := by
  induction fuel with
  | zero => intro n acc c h; exact Or.inl h
  | succ fuel ih =>
      intro n acc c h
      unfold Nat.toDigitsCore at h
      by_cases hz : n / b = 0
      · rw [if_pos hz] at h
        rcases List.mem_cons.mp h with h1 | h1
        · exact Or.inr ⟨n % b, h1⟩
        · exact Or.inl h1
      · rw [if_neg hz] at h
        rcases ih (n / b) (Nat.digitChar (n % b) :: acc) c h with h1 | h1
        · rcases List.mem_cons.mp h1 with h2 | h2
          · exact Or.inr ⟨n % b, h2⟩
          · exact Or.inl h2
        · exact Or.inr h1

theorem repr_not_ws (n : Nat) : ∀ c ∈ (Nat.repr n).data, jsWS c = false := by
  intro c hc
  have hc' : c ∈ Nat.toDigitsCore 10 (n + 1) n [] := hc
  rcases toDigitsCore_chars 10 (n + 1) n [] c hc' with h | ⟨m, hm⟩
  · simp at h
  · rw [hm]; exact jsWS_digitChar m

theorem repr_no_nl (n : Nat) : '\n' ∉ (Nat.repr n).data := by
  intro h
  have := repr_not_ws n '\n' h
  simp [jsWS] at this

theorem toDigitsCore_ne_nil_of_acc (b fuel : Nat) :
    ∀ (n : Nat) (acc : List Char), acc ≠ [] →
      Nat.toDigitsCore b fuel n acc ≠ [] := by
  induction fuel with
  | zero => intro n acc h; exact h
  | succ fuel ih =>
      intro n acc h
      unfold Nat.toDigitsCore
      by_cases hz : n / b = 0
      · rw [if_pos hz]; simp
      · rw [if_neg hz]
        exact ih (n / b) _ (by simp)

theorem repr_ne_nil (n : Nat) : (Nat.repr n).data ≠ [] := by
  show Nat.toDigitsCore 10 (n + 1) n [] ≠ []
  unfold Nat.toDigitsCore
  by_cases hz : n / 10 = 0
  · rw [if_pos hz]; simp
  · rw [if_neg hz]
    exact toDigitsCore_ne_nil_of_acc 10 n (n / 10) _ (by simp)

end QuadletForge

namespace QuadletForge

theorem data_append_ne_nil_left (a b : String) (h : a.data ≠ []) :
    (a ++ b).data ≠ [] := by
  rw [data_append]
  intro he
  exact h (List.append_eq_nil.mp he).1

/-- C8: a container with an empty networks list and no pod ref fails
generateFileTemplate; after attaching exactly one network it succeeds and the
output has exactly one line beginning with "Network=".  The hypotheses only
rule out literal newline characters inside the config-supplied identifiers,
which would make "line" ill-defined. -/
theorem c8_exactly_one_network_line
    (cid img nid sub gw : String) (ports : List PortMapping)
    (vols : List VolumeResource)
    (hc : '\n' ∉ cid.data) (hi : '\n' ∉ img.data) (hn : '\n' ∉ nid.data)
    (hv : ∀ v ∈ vols, '\n' ∉ v.id.data) :
    ContainerState.generateFileTemplate
        { id := cid, image := img, networks := [], pod := none,
          ports := ports, volumes := vols }
      = Except.error ("Container " ++ cid
          ++ " must have either networks or pod attached")
    ∧ ∃ c1 out,
        addToNetwork
            { id := cid, image := img, networks := [], pod := none,
              ports := ports, volumes := vols }
            (createNetwork { id := nid, subnet := sub, gateway := gw })
          = Except.ok c1
        ∧ ContainerState.generateFileTemplate c1 = Except.ok out
        ∧ ((jsLines out).countP fun l => strStarts l "Network=") = 1 := by
  constructor
  · rfl
  refine ⟨⟨cid, img, [createNetwork ⟨nid, sub, gw⟩], none, ports, vols⟩,
    _, rfl, rfl, ?_⟩
  -- name the pieces
  set c1 : ContainerState :=
    { id := cid, image := img,
      networks := [createNetwork { id := nid, subnet := sub, gateway := gw }],
      pod := none, ports := ports, volumes := vols } with hc1
  set netLine : String := "Network=" ++ nid ++ "." ++ "network" with hnet
  set pLine : PortMapping → String :=
    (fun p => "Port=" ++ toString p.external ++ ":" ++ toString p.internal)
    with hpl
  set vLine : VolumeResource → String :=
    (fun v => "Volume=" ++ v.id ++ "." ++ "volume") with hvl
  -- the dependency lines: the filter is the identity here
  have hdep : containerDepLines c1
      = netLine :: (ports.map pLine ++ vols.map vLine) := by
    show (([netLine] ++ [] ++ ports.map pLine ++ vols.map vLine).filter
      jsTruthy) = _
    rw [List.filter_eq_self.mpr]
    · simp
    · intro a ha
      simp only [List.mem_append, List.mem_singleton, List.mem_map,
        List.not_mem_nil, or_false] at ha
      rcases ha with (rfl | ⟨p, _, rfl⟩) | ⟨v, _, rfl⟩
      · rfl
      · rfl
      · rfl
  -- the line list of the rendered file
  set L : List (List Char) :=
    ("[Container]" : String).data
      :: ("ContainerName=" ++ cid).data
      :: ("Image=" ++ img).data
      :: (netLine :: (ports.map pLine ++ vols.map vLine)).map String.data
    with hLdef
  have hdls : (netLine :: (ports.map pLine ++ vols.map vLine)).map String.data
      = netLine.data :: ((ports.map pLine).map String.data
          ++ (vols.map vLine).map String.data) := by
    simp
  -- raw template text before trimming
  have hraw : ("\n[Container]\nContainerName=" ++ c1.id ++ "\nImage="
      ++ c1.image ++ "\n" ++ jsJoin "\n" (containerDepLines c1)).data
      = '\n' :: joinNl L := by
    rw [hdep]
    have hjoin := jsJoin_nl_data (netLine :: (ports.map pLine ++ vols.map vLine))
    have hLr : joinNl L
        = ("[Container]" : String).data
            ++ '\n' :: (("ContainerName=" ++ cid).data
            ++ '\n' :: (("Image=" ++ img).data
            ++ '\n' :: joinNl ((netLine :: (ports.map pLine
                  ++ vols.map vLine)).map String.data))) := rfl
    rw [hLr, ← hjoin]
    simp only [data_append, List.append_assoc]
    rfl
  -- every line is non-empty
  have hall : ∀ l ∈ L, l ≠ [] := by
    intro l hl
    rw [hLdef, hdls] at hl
    simp only [List.mem_cons, List.mem_append, List.mem_map] at hl
    rcases hl with rfl | rfl | rfl | rfl | ⟨s, ⟨p, _, rfl⟩, rfl⟩ | ⟨s, ⟨v, _, rfl⟩, rfl⟩
    · decide
    · exact data_append_ne_nil_left _ _ (by decide)
    · exact data_append_ne_nil_left _ _ (by decide)
    · exact data_append_ne_nil_left _ _
        (data_append_ne_nil_left _ _ (data_append_ne_nil_left _ _ (by decide)))
    · exact data_append_ne_nil_left _ _
        (data_append_ne_nil_left _ _ (data_append_ne_nil_left _ _ (by decide)))
    · exact data_append_ne_nil_left _ _
        (data_append_ne_nil_left _ _ (data_append_ne_nil_left _ _ (by decide)))
  -- no line contains a newline
  have hnl : ∀ l ∈ L, '\n' ∉ l := by
    intro l hl
    rw [hLdef, hdls] at hl
    simp only [List.mem_cons, List.mem_append, List.mem_map] at hl
    rcases hl with rfl | rfl | rfl | rfl | ⟨s, ⟨p, _, rfl⟩, rfl⟩ | ⟨s, ⟨v, _, rfl⟩, rfl⟩
    · decide
    · rw [data_append]
      exact List.not_mem_append (by decide) hc
    · rw [data_append]
      exact List.not_mem_append (by decide) hi
    · rw [hnet, data_append, data_append, data_append]
      exact List.not_mem_append (List.not_mem_append
        (List.not_mem_append (by decide) hn) (by decide)) (by decide)
    · rw [hpl]
      show '\n' ∉ ("Port=" ++ toString p.external ++ ":"
        ++ toString p.internal).data
      rw [data_append, data_append, data_append]
      exact List.not_mem_append (List.not_mem_append
        (List.not_mem_append (by decide) (repr_no_nl p.external)) (by decide))
        (repr_no_nl p.internal)
    · rw [hvl]
      show '\n' ∉ ("Volume=" ++ v.id ++ "." ++ "volume").data
      rw [data_append, data_append, data_append]
      exact List.not_mem_append (List.not_mem_append
        (List.not_mem_append (by decide) (hv v ‹v ∈ vols›)) (by decide))
        (by decide)
  -- the dependency-line char lists and their trailing characters
  set dls : List (List Char) := netLine.data
      :: ((ports.map pLine).map String.data
        ++ (vols.map vLine).map String.data) with hdlsdef
  have hdne : dls ≠ [] := by rw [hdlsdef]; simp
  have hdlast : ∀ l ∈ dls, ∀ ch, l.getLast? = some ch → jsWS ch = false := by
    intro l hl ch hch
    rw [hdlsdef] at hl
    simp only [List.mem_cons, List.mem_append, List.mem_map] at hl
    rcases hl with rfl | ⟨s, ⟨p, _, rfl⟩, rfl⟩ | ⟨s, ⟨v, _, rfl⟩, rfl⟩
    · rw [hnet] at hch
      rw [show ("Network=" ++ nid ++ "." ++ "network" : String).data
        = ("Network=" ++ nid ++ "." : String).data
          ++ ("network" : String).data from rfl] at hch
      rw [getLast?_append_right _ _ (by decide)] at hch
      rw [show (("network" : String).data).getLast? = some 'k' from rfl] at hch
      rw [← Option.some.inj hch]
      decide
    · rw [hpl] at hch
      rw [show (("Port=" ++ toString p.external ++ ":"
          ++ toString p.internal : String)).data
        = ("Port=" ++ toString p.external ++ ":" : String).data
          ++ (toString p.internal).data from rfl] at hch
      rw [getLast?_append_right _ _
        (show (toString p.internal).data ≠ [] from repr_ne_nil p.internal)]
        at hch
      exact repr_not_ws p.internal ch (mem_of_getLast_eq hch)
    · rw [hvl] at hch
      rw [show ("Volume=" ++ v.id ++ "." ++ "volume" : String).data
        = ("Volume=" ++ v.id ++ "." : String).data
          ++ ("volume" : String).data from rfl] at hch
      rw [getLast?_append_right _ _ (by decide)] at hch
      rw [show (("volume" : String).data).getLast? = some 'e' from rfl] at hch
      rw [← Option.some.inj hch]
      decide
  have hLlast : L.getLast? = dls.getLast? := by
    rw [hLdef, hdls, hdlsdef]
    rw [List.getLast?_cons_cons, List.getLast?_cons_cons,
      List.getLast?_cons_cons]
  -- the rendered text is exactly the joined line list
  have hout : (containerTemplate c1).data = joinNl L := by
    show trimChars ("\n[Container]\nContainerName=" ++ c1.id ++ "\nImage="
      ++ c1.image ++ "\n" ++ jsJoin "\n" (containerDepLines c1)).data
      = joinNl L
    rw [hraw]
    apply trimChars_nl_cons
    · intro ch h
      have hhead : (joinNl L).head? = some '[' := by
        rw [hLdef, hdls]
        rfl
      rw [hhead] at h
      rw [← Option.some.inj h]
      decide
    · intro ch h
      have hlast : L.getLast? = some (dls.getLast hdne) := by
        rw [hLlast]
        exact List.getLast?_eq_getLast dls hdne
      rw [getLast?_joinNl L hall (dls.getLast hdne) hlast] at h
      exact hdlast (dls.getLast hdne) (List.getLast_mem hdne) ch h
  -- the rendered lines
  have hlines : jsLines (containerTemplate c1)
      = "[Container]" :: ("ContainerName=" ++ cid) :: ("Image=" ++ img)
        :: netLine :: (ports.map pLine ++ vols.map vLine) := by
    show ((splitNl (containerTemplate c1).data).map fun l => String.mk l) = _
    rw [hout, splitNl_joinNl L (by rw [hLdef]; simp) hnl, hLdef]
    simp only [List.map_cons, List.map_map]
    rw [show (String.mk ("[Container]" : String).data) = "[Container]"
      from rfl]
    rw [show (String.mk ("ContainerName=" ++ cid).data)
      = "ContainerName=" ++ cid from rfl]
    rw [show (String.mk ("Image=" ++ img).data) = "Image=" ++ img from rfl]
    rw [show ((fun l => String.mk l) ∘ String.data) = (id : String → String)
      from rfl]
    rw [List.map_id]
  -- count the Network= lines
  have hp0 : (ports.map pLine).countP (fun l => strStarts l "Network=") = 0 := by
    rw [List.countP_eq_zero]
    intro a ha
    rcases List.mem_map.mp ha with ⟨p, _, rfl⟩
    rw [hpl]
    rw [show strStarts ("Port=" ++ toString p.external ++ ":"
      ++ toString p.internal) "Network=" = false from rfl]
    simp
  have hv0 : (vols.map vLine).countP (fun l => strStarts l "Network=") = 0 := by
    rw [List.countP_eq_zero]
    intro a ha
    rcases List.mem_map.mp ha with ⟨v, _, rfl⟩
    rw [hvl]
    rw [show strStarts ("Volume=" ++ v.id ++ "." ++ "volume") "Network="
      = false from rfl]
    simp
  have e1 : strStarts "[Container]" "Network=" = false := rfl
  have e2 : strStarts ("ContainerName=" ++ cid) "Network=" = false := rfl
  have e3 : strStarts ("Image=" ++ img) "Network=" = false := rfl
  have e4 : strStarts netLine "Network=" = true := by
    rw [hnet]
    rfl
  rw [hlines]
  simp [List.countP_cons, List.countP_append, hp0, hv0, e1, e2, e3, e4]

end QuadletForge

namespace QuadletForge

/-- C8 witness: the concrete "caddy" container with no dependencies fails to
render, and after attaching the "app" network it renders with exactly one
Network= line. -/
theorem c8_witness :
    ContainerState.generateFileTemplate
        { id := "caddy", image := "img", networks := [], pod := none,
          ports := [], volumes := [] }
      = Except.error "Container caddy must have either networks or pod attached"
    ∧ ∃ c1 out,
        addToNetwork
            { id := "caddy", image := "img", networks := [], pod := none,
              ports := [], volumes := [] }
            (createNetwork { id := "app", subnet := "s", gateway := "g" })
          = Except.ok c1
        ∧ ContainerState.generateFileTemplate c1 = Except.ok out
        ∧ ((jsLines out).countP fun l => strStarts l "Network=") = 1 := by
  have h := c8_exactly_one_network_line "caddy" "img" "app" "s" "g" [] []
    (by decide) (by decide) (by decide)
    (by intro v hv; exact absurd hv (List.not_mem_nil v))
  exact ⟨h.1, h.2⟩

end QuadletForge

namespace QuadletForge

/-! ### Registry lemmas -/

theorem mapGet_replace_ne (m : List (String × NetworkResource))
    (k' k : String) (v : NetworkResource) (h : k' ≠ k) :
    mapGet (m.map fun kv => if kv.1 == k' then (k', v) else kv) k
      = mapGet m k := by
  induction m with
  | nil => rfl
  | cons kv rest ih =>
      simp only [List.map_cons]
      by_cases hkv : kv.1 = k'
      · rw [if_pos (by simp [hkv])]
        have hb2 : (kv.1 == k) = false := by simp [hkv, h]
        have hb3 : (k' == k) = false := by simp [h]
        simp only [mapGet, List.find?_cons, hb3, hb2]
        exact ih
      · rw [if_neg (by simp [hkv])]
        by_cases hk : kv.1 = k
        · have hb2 : (kv.1 == k) = true := by simp [hk]
          simp [mapGet, List.find?_cons, hb2]
        · have hb2 : (kv.1 == k) = false := by simp [hk]
          simp only [mapGet, List.find?_cons, hb2]
          exact ih

theorem mapGet_append_single_ne (m : List (String × NetworkResource))
    (k' k : String) (v : NetworkResource) (h : k' ≠ k) :
    mapGet (m ++ [(k', v)]) k = mapGet m k := by
  induction m with
  | nil =>
      have hb : (k' == k) = false := by simp [h]
      simp [mapGet, List.find?_cons, hb]
  | cons kv rest ih =>
      by_cases hk : kv.1 = k
      · have hb : (kv.1 == k) = true := by simp [hk]
        simp [mapGet, List.find?_cons, hb]
      · have hb : (kv.1 == k) = false := by simp [hk]
        simp only [List.cons_append, mapGet, List.find?_cons, hb]
        exact ih

theorem mapGet_mapSet_ne (m : List (String × NetworkResource))
    (k' k : String) (v : NetworkResource) (h : k' ≠ k) :
    mapGet (mapSet m k' v) k = mapGet m k := by
  unfold mapSet
  by_cases ha : (m.any fun kv => kv.1 == k') = true
  · rw [if_pos ha]
    exact mapGet_replace_ne m k' k v h
  · rw [if_neg ha]
    exact mapGet_append_single_ne m k' k v h

theorem mapGet_append_right_of_no_key (m xs : List (String × NetworkResource))
    (k : String) (h : (m.any fun kv => kv.1 == k) = false) :
    mapGet (m ++ xs) k = mapGet xs k := by
  induction m with
  | nil => rfl
  | cons kv rest ih =>
      simp only [List.any_cons, Bool.or_eq_false_iff] at h
      simp only [List.cons_append, mapGet, List.find?_cons, h.1]
      exact ih h.2

theorem registerNetworks_fold_preserves
    (rest : List PodmanNetworkConfig) (k : String) :
    ∀ acc : List (String × NetworkResource),
      (∀ m ∈ rest, m.id ≠ k) →
        mapGet (rest.foldl (fun m n => mapSet m n.id (createNetwork n)) acc) k
          = mapGet acc k := by
  induction rest with
  | nil => intro acc _; rfl
  | cons n rest ih =>
      intro acc hne
      simp only [List.foldl_cons]
      rw [ih (mapSet acc n.id (createNetwork n))
        (fun m hm => hne m (List.mem_cons_of_mem n hm))]
      exact mapGet_mapSet_ne acc n.id k (createNetwork n)
        (hne n (List.mem_cons_self n rest))

theorem registerNetworks_fold_lookup
    (networks : List PodmanNetworkConfig) :
    ∀ acc : List (String × NetworkResource),
      List.Pairwise (fun a b => a.id ≠ b.id) networks →
      (∀ cfg ∈ networks, (acc.any fun kv => kv.1 == cfg.id) = false) →
        ∀ cfg ∈ networks,
          mapGet
              (networks.foldl (fun m n => mapSet m n.id (createNetwork n)) acc)
              cfg.id
            = some (createNetwork cfg) := by
  induction networks with
  | nil => intro acc _ _ cfg hcfg; exact absurd hcfg (List.not_mem_nil cfg)
  | cons n rest ih =>
      intro acc hpw hdisj cfg hcfg
      have hpw' := (List.pairwise_cons.mp hpw)
      have hstep : mapSet acc n.id (createNetwork n)
          = acc ++ [(n.id, createNetwork n)] := by
        unfold mapSet
        rw [if_neg]
        rw [hdisj n (List.mem_cons_self n rest)]
        simp
      rcases List.mem_cons.mp hcfg with rfl | hcfg'
      · simp only [List.foldl_cons]
        rw [registerNetworks_fold_preserves rest cfg.id _
          (fun m hm => (hpw'.1 m hm).symm)]
        rw [hstep]
        rw [mapGet_append_right_of_no_key acc _ cfg.id
          (hdisj cfg (List.mem_cons_self cfg rest))]
        simp [mapGet, List.find?_cons]
      · simp only [List.foldl_cons]
        apply ih _ hpw'.2 _ cfg hcfg'
        intro m hm
        rw [hstep]
        rw [List.any_append]
        rw [hdisj m (List.mem_cons_of_mem n hm)]
        have : (n.id == m.id) = false := by
          simp [hpw'.1 m hm]
        simp [this]

end QuadletForge

namespace QuadletForge

/-- C9 counterexample: registering two configs with the same id "a" does not
fail at runtime — registerNetworks completes, the second config silently
overwriting the first in the map — whereas the spec-modelled runtime-checked
registration rejects exactly this input with the duplicate-id error. -/
theorem c9_duplicate_id_registers_without_error :
    registerNetworks
        [⟨"a", "s1", "g1"⟩, ⟨"a", "s2", "g2"⟩]
      = [("a", createNetwork ⟨"a", "s2", "g2"⟩)]
    ∧ registerNetworksSpec
        [⟨"a", "s1", "g1"⟩, ⟨"a", "s2", "g2"⟩]
      = Except.error "duplicate_network\nNetwork \"a\" already exists" :=
  ⟨rfl, rfl⟩

/-- C9 (amended): registerNetworks enforces unique ids only at the type
level; at runtime it never raises — a duplicated id silently overwrites the
earlier entry (see the counterexample) — and registering configs with
pairwise-distinct ids succeeds with every id mapped to its config's
resource. -/
theorem c9_distinct_ids_all_registered
    (networks : List PodmanNetworkConfig)
    (hpw : List.Pairwise (fun a b => a.id ≠ b.id) networks) :
    ∀ cfg ∈ networks,
      mapGet (registerNetworks networks) cfg.id
        = some (createNetwork cfg) := by
  intro cfg hcfg
  exact registerNetworks_fold_lookup networks [] hpw
    (fun _ _ => rfl) cfg hcfg

/-- C9 witness: two distinct ids are both registered and retrievable. -/
theorem c9_witness :
    mapGet (registerNetworks [⟨"a", "s1", "g1"⟩, ⟨"b", "s2", "g2"⟩]) "b"
      = some (createNetwork ⟨"b", "s2", "g2"⟩) :=
  c9_distinct_ids_all_registered
    [⟨"a", "s1", "g1"⟩, ⟨"b", "s2", "g2"⟩]
    (by simp)
    ⟨"b", "s2", "g2"⟩ (by simp)

/-- C10: requesting volume file templates over a name set that includes a
bind-mount volume (host_path set) fails; every file a successful request
returns belongs to a podman-managed volume (host_path absent) and is named
"{name}.volume"; and the named volume "data" yields exactly the file
"data.volume". -/
theorem c10_bind_mounts_are_fileless :
    (∀ (volumes : List PodmanVolumeConfig) (names : List String),
        (∃ nm ∈ names, ∃ v ∈ volumes, v.name = nm
            ∧ jsTruthyOpt v.host_path = true) →
          (getFileTemplates volumes names).isOk = false)
    ∧ (∀ (volumes : List PodmanVolumeConfig) (names : List String)
          (result : List GeneratedFile),
        getFileTemplates volumes names = Except.ok result →
          ∀ f ∈ result, ∃ v ∈ volumes,
            jsTruthyOpt v.host_path = false
              ∧ f.file_name = v.name ++ ".volume")
    ∧ getFileTemplates
        [⟨"data", "/d", none, none⟩] ["data"]
      = Except.ok [⟨"data.volume", PODMAN_PATHS_quadlet, "[Volume]"⟩] := by
  refine ⟨?_, ?_, rfl⟩
  · rintro volumes names ⟨nm, hnm, v, hv, hname, htruthy⟩
    have hpred : (volumes.any fun w => w.name == nm && jsTruthyOpt w.host_path)
        = true := by
      rw [List.any_eq_true]
      exact ⟨v, hv, by rw [hname]; simp [htruthy]⟩
    have hmem : nm ∈ names.filter fun name =>
        volumes.any fun w => w.name == name && jsTruthyOpt w.host_path :=
      List.mem_filter.mpr ⟨hnm, hpred⟩
    have hlen : 0 < (names.filter fun name =>
        volumes.any fun w => w.name == name && jsTruthyOpt w.host_path).length :=
      List.length_pos.mpr (List.ne_nil_of_mem hmem)
    unfold getFileTemplates
    simp only [hlen, if_pos]
    rfl
  · intro volumes names result h f hf
    unfold getFileTemplates at h
    by_cases hlen : 0 < (names.filter fun name =>
        volumes.any fun w => w.name == name && jsTruthyOpt w.host_path).length
    · rw [if_pos hlen] at h
      exact absurd h (by simp)
    · rw [if_neg hlen] at h
      have hres := Except.ok.inj h
      rw [← hres] at hf
      have hf1 := (List.mem_filter.mp hf).1
      unfold volumeTemplates at hf1
      rcases List.mem_map.mp hf1 with ⟨cfg, hcfg, rfl⟩
      have hcfg1 := List.mem_filter.mp hcfg
      refine ⟨cfg, hcfg1.1, ?_, rfl⟩
      have := hcfg1.2
      rw [Bool.not_eq_eq_eq_not] at this
      simpa using this

/-- C10 witness: a request naming a bind-mount volume fails, while the
request for the named volume "data" yields the file "data.volume". -/
theorem c10_witness :
    (getFileTemplates
        [⟨"cfg", "/m", some "/host", none⟩] ["cfg"]).isOk = false
    ∧ getFileTemplates
        [⟨"data", "/d", none, none⟩] ["data"]
      = Except.ok [⟨"data.volume", PODMAN_PATHS_quadlet, "[Volume]"⟩] :=
  ⟨c10_bind_mounts_are_fileless.1
      [⟨"cfg", "/m", some "/host", none⟩] ["cfg"]
      ⟨"cfg", by simp, ⟨"cfg", "/m", some "/host", none⟩, by simp, rfl, rfl⟩,
   c10_bind_mounts_are_fileless.2.2⟩

end QuadletForge
